import Mathlib

/-!
Verification of the FTP/Tailscale administrative scripts.

The Python sources are shallowly embedded: pure helpers become Lean
functions; the effect of each user-management operation on the machine
(accounts, the allow-list file, the credential CSV) is modelled as a
function on an explicit state record, with the outcomes of external
commands and the random draws of the password generator supplied as
explicit oracle parameters.  Files are modelled at line granularity
(a file is a list of newline-terminated lines, stored without the
terminator).
-/

namespace LinuxScripts

/-! Character sets (Python string module constants) -/

def asciiLower : List Char := "abcdefghijklmnopqrstuvwxyz".toList

def asciiUpper : List Char := "ABCDEFGHIJKLMNOPQRSTUVWXYZ".toList

def asciiDigits : List Char := "0123456789".toList

/-- Model of Python str.replace(c, String.empty): remove every occurrence of a
character. -/
def removeChar (l : List Char) (c : Char) : List Char := l.filter (fun x => x ≠ c)

/-- Characters removed by Python str.strip() (ASCII whitespace). -/
def pySpace (c : Char) : Bool :=
  c = ' ' || c = '\t' || c = '\n' || c = '\r' || c = '\x0b' || c = '\x0c'

/-- Model of Python str.strip(): drop leading and trailing whitespace. -/
def pystrip (s : String) : String :=
  String.mk (((s.toList.dropWhile pySpace).reverse.dropWhile pySpace).reverse)

/-! Password policy (the password_policy sub-dictionary of the config)

Each field is Option-valued: none models an absent key, and the
resolution into a PasswordGenerator applies the .get defaults of
PasswordGenerator.init and of the .get calls inside generate. -/

structure Policy where
  length : Option Nat := none
  include_uppercase : Option Bool := none
  include_lowercase : Option Bool := none
  include_digits : Option Bool := none
  include_special : Option Bool := none
  special_chars : Option (List Char) := none
  exclude_ambiguous : Option Bool := none
  min_lowercase : Option Nat := none
  min_uppercase : Option Nat := none
  min_digits : Option Nat := none
  min_special : Option Nat := none
  deriving DecidableEq

/-- The resolved generator settings (PasswordGenerator.init plus the
min_* defaults read inside generate). -/
structure PasswordGenerator where
  length : Nat
  include_uppercase : Bool
  include_lowercase : Bool
  include_digits : Bool
  include_special : Bool
  special_chars : List Char
  exclude_ambiguous : Bool
  min_lowercase : Nat
  min_uppercase : Nat
  min_digits : Nat
  min_special : Nat

/-- PasswordGenerator.init: every policy key falls back to its
hardcoded default. -/
def PasswordGenerator.ofPolicy (p : Policy) : PasswordGenerator where
  length := p.length.getD 16
  include_uppercase := p.include_uppercase.getD true
  include_lowercase := p.include_lowercase.getD true
  include_digits := p.include_digits.getD true
  include_special := p.include_special.getD true
  special_chars := p.special_chars.getD "!@#$%^&*-_=+".toList
  exclude_ambiguous := p.exclude_ambiguous.getD true
  min_lowercase := p.min_lowercase.getD 2
  min_uppercase := p.min_uppercase.getD 2
  min_digits := p.min_digits.getD 2
  min_special := p.min_special.getD 2

/-- The lowercase pool built in generate (ambiguous l and o removed
when exclude_ambiguous). -/
def PasswordGenerator.lowerChars (g : PasswordGenerator) : List Char :=
  if g.exclude_ambiguous then removeChar (removeChar asciiLower 'l') 'o' else asciiLower

/-- The uppercase pool built in generate (ambiguous I and O removed
when exclude_ambiguous). -/
def PasswordGenerator.upperChars (g : PasswordGenerator) : List Char :=
  if g.exclude_ambiguous then removeChar (removeChar asciiUpper 'I') 'O' else asciiUpper

/-- The digit pool built in generate (ambiguous 0 and 1 removed when
exclude_ambiguous). -/
def PasswordGenerator.digitChars (g : PasswordGenerator) : List Char :=
  if g.exclude_ambiguous then removeChar (removeChar asciiDigits '0') '1' else asciiDigits

/-- The accumulated charset variable of generate: the enabled pools in
the order the code appends them. -/
def PasswordGenerator.charset (g : PasswordGenerator) : List Char :=
  (if g.include_lowercase then g.lowerChars else [])
    ++ (if g.include_uppercase then g.upperChars else [])
    ++ (if g.include_digits then g.digitChars else [])
    ++ (if g.include_special then g.special_chars else [])

/-- Model of secrets.choice: the oracle supplies an arbitrary natural i
and the draw takes element i mod length; on an empty pool the call
raises (none), as secrets.choice raises IndexError. -/
def pickFrom (l : List Char) (i : Nat) : Option Char :=
  l.get? (i % l.length)

/-- Draw n characters from pool l, consuming oracle positions k, k+1, ... -/
def drawN (l : List Char) (pick : Nat → Nat) : Nat → Nat → Option (List Char)
  | _, 0 => some []
  | k, n + 1 => do
    let c ← pickFrom l (pick k)
    let rest ← drawN l pick (k + 1) n
    pure (c :: rest)

/-- PasswordGenerator.generate.  pick is the stream of random choices;
shuf models secrets.SystemRandom().shuffle (any permutation).  The
result is none exactly when a secrets.choice call raises on an empty
pool.  Note remaining_length is a truncated subtraction: in Python,
range of a negative number is empty. -/
def PasswordGenerator.generate (g : PasswordGenerator) (pick : Nat → Nat)
    (shuf : List Char → List Char) : Option (List Char) := do
  let nLow := if g.include_lowercase then g.min_lowercase else 0
  let nUp := if g.include_uppercase then g.min_uppercase else 0
  let nDig := if g.include_digits then g.min_digits else 0
  let nSp := if g.include_special then g.min_special else 0
  let lowPart ← drawN g.lowerChars pick 0 nLow
  let upPart ← drawN g.upperChars pick nLow nUp
  let digPart ← drawN g.digitChars pick (nLow + nUp) nDig
  let spPart ← drawN g.special_chars pick (nLow + nUp + nDig) nSp
  let base := lowPart ++ upPart ++ digPart ++ spPart
  let fill ← drawN g.charset pick (nLow + nUp + nDig + nSp) (g.length - base.length)
  pure (shuf (base ++ fill))

/-- Sum of the per-class minimums over the enabled classes. -/
def PasswordGenerator.minTotal (g : PasswordGenerator) : Nat :=
  (if g.include_lowercase then g.min_lowercase else 0)
    + (if g.include_uppercase then g.min_uppercase else 0)
    + (if g.include_digits then g.min_digits else 0)
    + (if g.include_special then g.min_special else 0)

/-- Number of characters of cs that belong to the class pool cls. -/
def countClass (cs : List Char) (cls : List Char) : Nat :=
  (cs.filter (fun c => c ∈ cls)).length

/-! Username validation (FTPUserManager.validate_username) -/

def reservedNames : List String := ["root", "admin", "administrator", "ftp", "test"]

def isValidChar (c : Char) : Bool := c.isAlphanum || c = '-' || c = '_'

def validate_username (u : String) : Bool × String :=
  if u.length = 0 then (false, "Username cannot be empty")
  else if u.length < 3 then (false, "Username must be at least 3 characters")
  else if 32 < u.length then (false, "Username must be 32 characters or less")
  else if ¬ u.toList.headI.isAlpha then (false, "Username must start with a letter")
  else if ¬ u.toList.all isValidChar then
    (false, "Username can only contain letters, numbers, hyphens, and underscores")
  else if u ∈ reservedNames then (false, "Username is reserved")
  else (true, "")

/-! Configuration records

Each sub-dictionary of the JSON configuration is a record of
Option-valued fields (none models an absent key); resolution functions
apply the .get defaults at the use sites in the code. -/

structure FTPConfig where
  ftp_root : Option String := none
  allowed_users_file : Option String := none
  default_shell : Option String := none
  ftp_group : Option String := none
  deriving DecidableEq

structure LoggingConfig where
  enabled : Option Bool := none
  credentials_file : Option String := none
  deriving DecidableEq

/-- The ftp_root default applied at every use site. -/
def FTPConfig.root (fc : FTPConfig) : String := fc.ftp_root.getD "/srv/ftp"

/-- The allowed_users_file default applied at every use site. -/
def FTPConfig.userlistPath (fc : FTPConfig) : String :=
  fc.allowed_users_file.getD "/etc/vsftpd.userlist"

/-- logging.get enabled with default True. -/
def LoggingConfig.isEnabled (lc : LoggingConfig) : Bool := lc.enabled.getD true

/-- Top-level configuration (only the sections the user manager reads
are modelled in depth). -/
structure Config where
  ftp_config : Option FTPConfig := none
  password_policy : Option Policy := none
  logging : Option LoggingConfig := none
  deriving DecidableEq

/-! Machine state and command oracles -/

/-- State of the parts of the machine the scripts touch: the system
account database, the allow-list file and the credential CSV.  A file
is none when it does not exist; permissions are tracked alongside. -/
structure Sys where
  accounts : List String
  userlist : Option (List String)
  userlistPerm : Option Nat
  credRows : Option (List (List String))
  credPerm : Option Nat
  deriving DecidableEq

/-- External commands the user manager spawns. -/
inductive Cmd where
  | idCmd (u : String)
  | useradd (u : String)
  | chpasswd (u : String)
  | userdel (u : String) (removeHome : Bool)
  deriving DecidableEq

/-- Oracle for the environment: outcomes of external commands and
OS-level calls, the wall clock, and the randomness of the generator. -/
structure Env where
  useradd_ok : Bool
  chpasswd_rc : Int
  dirs_ok : Bool
  userdel_ok : Bool
  now : String
  pick : Nat → Nat
  shuf : List Char → List Char

/-! Credential logging (FTPUserManager._log_credentials) -/

def credHeader : List String :=
  ["Timestamp", "Username", "Password", "Home Directory", "Files Directory"]

/-- The data row written per operation: timestamp, username, password,
home directory, files directory. -/
def credRow (fc : FTPConfig) (now u pw : String) : List String :=
  [now, u, pw, fc.root ++ "/" ++ u, fc.root ++ "/" ++ u ++ "/files"]

/-- The rows the CSV holds when the writer opens it in append mode: the
header is written first only when the file did not exist. -/
def credBase (st : Sys) : List (List String) :=
  match st.credRows with
  | none => [credHeader]
  | some rs => rs

/-- FTPUserManager._log_credentials: a no-op when logging is disabled;
otherwise append one data row (creating the file with a header row if
missing) and chmod the file to 0o600. -/
def log_credentials (fc : FTPConfig) (lc : LoggingConfig) (now : String) (st : Sys)
    (u pw : String) : Sys :=
  if lc.isEnabled = false then st
  else
    { st with
      credRows := some (credBase st ++ [credRow fc now u pw])
      credPerm := some 0o600 }

/-- Password resolution at the top of create_user and change_password:
an explicitly supplied password is used as is, otherwise the generator
runs (and its IndexError, if any, propagates: none). -/
def pwResolve (pol : Policy) (env : Env) (pwOpt : Option String) : Option String :=
  match pwOpt with
  | some p => some p
  | none => ((PasswordGenerator.ofPolicy pol).generate env.pick env.shuf).map String.mk

/-! FTPUserManager.create_user

The returned value is none exactly when an uncaught exception escapes
(the password generator raising on an empty pool); otherwise some of
the new machine state, the (success, username, password) result, and
the trace of external commands spawned, in order. -/

def create_user (fc : FTPConfig) (lc : LoggingConfig) (pol : Policy) (env : Env) (st : Sys)
    (u : String) (pwOpt : Option String) :
    Option (Sys × (Bool × String × String) × List Cmd) :=
  if (validate_username u).1 = false then
    some (st, (false, u, ""), [])
  else if u ∈ st.accounts then
    some (st, (false, u, ""), [Cmd.idCmd u])
  else
    match pwResolve pol env pwOpt with
    | none => none
    | some pw =>
      if env.useradd_ok = false then
        -- useradd raised CalledProcessError; the account was not
        -- created, so the cleanup only runs the id probe.
        some (st, (false, u, ""), [Cmd.idCmd u, Cmd.useradd u, Cmd.idCmd u])
      else
        let st1 : Sys := { st with accounts := u :: st.accounts }
        if env.chpasswd_rc ≠ 0 then
          -- chpasswd failed; cleanup finds the account and runs a
          -- single best-effort userdel -r (its own result unchecked).
          let st2 : Sys := if env.userdel_ok then
            { st1 with accounts := st1.accounts.erase u } else st1
          some (st2, (false, u, ""),
            [Cmd.idCmd u, Cmd.useradd u, Cmd.chpasswd u, Cmd.idCmd u, Cmd.userdel u true])
        else if env.dirs_ok = false then
          -- an OS-level directory call raised: the generic handler
          -- returns failure with no cleanup at all.
          some (st1, (false, u, ""), [Cmd.idCmd u, Cmd.useradd u, Cmd.chpasswd u])
        else
          let lines := st1.userlist.getD []
          let perm := match st1.userlist with
            | none => some 0o644
            | some _ => st1.userlistPerm
          let lines2 := if u ∈ lines.map pystrip then lines else lines ++ [u]
          let st2 : Sys := { st1 with userlist := some lines2, userlistPerm := perm }
          let st3 := log_credentials fc lc env.now st2 u pw
          some (st3, (true, u, pw), [Cmd.idCmd u, Cmd.useradd u, Cmd.chpasswd u])

/-- FTPUserManager.change_password. -/
def change_password (fc : FTPConfig) (lc : LoggingConfig) (pol : Policy) (env : Env)
    (st : Sys) (u : String) (pwOpt : Option String) :
    Option (Sys × (Bool × String) × List Cmd) :=
  if u ∉ st.accounts then
    some (st, (false, ""), [Cmd.idCmd u])
  else
    match pwResolve pol env pwOpt with
    | none => none
    | some pw =>
      if env.chpasswd_rc ≠ 0 then
        some (st, (false, ""), [Cmd.idCmd u, Cmd.chpasswd u])
      else
        some (log_credentials fc lc env.now st u pw, (true, pw),
          [Cmd.idCmd u, Cmd.chpasswd u])

/-- FTPUserManager.delete_user: remove the account, then rewrite the
allow-list keeping exactly the lines whose stripped content differs
from the username. -/
def delete_user (env : Env) (st : Sys) (u : String) (removeHome : Bool) :
    Sys × Bool × List Cmd :=
  if u ∉ st.accounts then
    (st, false, [Cmd.idCmd u])
  else if env.userdel_ok = false then
    (st, false, [Cmd.idCmd u, Cmd.userdel u removeHome])
  else
    let st1 : Sys := { st with accounts := st.accounts.erase u }
    match st1.userlist with
    | none => (st1, true, [Cmd.idCmd u, Cmd.userdel u removeHome])
    | some lines =>
      ({ st1 with userlist := some (lines.filter (fun l => pystrip l ≠ u)) }, true,
        [Cmd.idCmd u, Cmd.userdel u removeHome])

/-! Configuration loading across the scripts -/

/-- State of the configuration file on disk. -/
inductive ConfigSrc where
  | missing
  | malformed
  | wellFormed (c : Config)

/-- Outcome of a _load_config call: either the process exits or a
configuration value is returned. -/
inductive LoadResult where
  | exited (code : Nat)
  | loaded (c : Config)

/-- FTPUserManager._load_config (ftp_users.py): exits with code 1 when
the file is missing or holds invalid JSON. -/
def ftpUsers_load_config : ConfigSrc → LoadResult
  | .missing => .exited 1
  | .malformed => .exited 1
  | .wellFormed c => .loaded c

/-- FTPDebugger._load_config (ftp_debug.py): returns an empty
configuration when the file is missing or unparsable. -/
def ftpDebug_load_config : ConfigSrc → LoadResult
  | .missing => .loaded {}
  | .malformed => .loaded {}
  | .wellFormed c => .loaded c

/-- TailscaleSetup._load_config (tailscale_setup.py): warns and returns
an empty configuration when the file is missing or unparsable. -/
def tailscaleSetup_load_config : ConfigSrc → LoadResult
  | .missing => .loaded {}
  | .malformed => .loaded {}
  | .wellFormed c => .loaded c

/-- TailscaleDebugger._load_config (tailscale_debug.py): returns an
empty configuration when the file is missing or unparsable. -/
def tailscaleDebug_load_config : ConfigSrc → LoadResult
  | .missing => .loaded {}
  | .malformed => .loaded {}
  | .wellFormed c => .loaded c

/-! The diagnostic _run_command helper (identical in ftp_debug.py
and tailscale_debug.py) -/

/-- How the spawned subprocess behaves: it completes with an exit code
and output, times out, or the spawn itself raises with a message. -/
inductive RunOutcome where
  | completed (rc : Int) (stdout stderr : String)
  | timedOut
  | raised (msg : String)
  deriving DecidableEq

/-- The _run_command body shared verbatim by FTPDebugger and
TailscaleDebugger: every outcome is converted into an
(exit code, stdout, stderr) triple; no exception escapes. -/
def debug_run_command (o : RunOutcome) : Int × String × String :=
  match o with
  | .completed rc out err => (rc, out, err)
  | .timedOut => (-1, "", "Command timed out")
  | .raised msg => (-1, "", msg)

/-! Helper lemmas -/

lemma pickFrom_mem {l : List Char} {i : Nat} {c : Char} (h : pickFrom l i = some c) :
    c ∈ l :=
  List.get?_mem h

lemma drawN_spec {l : List Char} {pick : Nat → Nat} :
    ∀ {n k cs}, drawN l pick k n = some cs → cs.length = n ∧ ∀ c ∈ cs, c ∈ l := by
  intro n
  induction n with
  | zero =>
    intro k cs h
    simp only [drawN, Option.some.injEq] at h
    subst h
    simp
  | succ n ih =>
    intro k cs h
    simp only [drawN, Option.pure_def, Option.bind_eq_bind, Option.bind_eq_some,
      Option.some.injEq] at h
    obtain ⟨c, hc, rest, hrest, hcons⟩ := h
    subst hcons
    obtain ⟨hlen, hmem⟩ := ih hrest
    refine ⟨by simp [hlen], ?_⟩
    intro x hx
    rcases List.mem_cons.mp hx with hx | hx
    · exact hx ▸ pickFrom_mem hc
    · exact hmem x hx

lemma drawN_nil_pos {pick : Nat → Nat} {k n : Nat} :
    drawN [] pick k (n + 1) = none := rfl

/-- Characterization of a passing validation. -/
lemma validate_username_true_iff (u : String) :
    (validate_username u).1 = true ↔
      (3 ≤ u.length ∧ u.length ≤ 32 ∧ u.toList.headI.isAlpha = true ∧
        (∀ c ∈ u.toList, isValidChar c = true) ∧ u ∉ reservedNames) := by
  unfold validate_username
  split_ifs with h1 h2 h3 h4 h5 h6 <;>
    simp_all [List.all_eq_true]

lemma not_pySpace_of_valid {c : Char} (h : isValidChar c = true) : pySpace c = false := by
  cases hs : pySpace c
  · rfl
  · exfalso
    unfold pySpace at hs
    simp only [Bool.or_eq_true, decide_eq_true_eq] at hs
    rcases hs with ((((h1 | h1) | h1) | h1) | h1) | h1 <;> subst h1 <;>
      exact absurd h (by decide)

lemma dropWhile_eq_self {p : Char → Bool} :
    ∀ {l : List Char}, (∀ c ∈ l, p c = false) → l.dropWhile p = l
  | [], _ => rfl
  | c :: l, h => by
    have hc := h c (by simp)
    simp [List.dropWhile_cons, hc]

lemma pystrip_eq_self {u : String} (h : ∀ c ∈ u.toList, pySpace c = false) :
    pystrip u = u := by
  unfold pystrip
  rw [dropWhile_eq_self h,
    dropWhile_eq_self (fun c hc => h c (List.mem_reverse.mp hc)),
    List.reverse_reverse]
  cases u
  rfl

lemma pystrip_of_valid {u : String} (h : (validate_username u).1 = true) :
    pystrip u = u :=
  pystrip_eq_self fun c hc =>
    not_pySpace_of_valid (((validate_username_true_iff u).mp h).2.2.2.1 c hc)

/-! Concrete objects used by witnesses -/

def env0 : Env :=
  { useradd_ok := true, chpasswd_rc := 0, dirs_ok := true, userdel_ok := true,
    now := "2026-01-01 00:00:00", pick := fun _ => 0, shuf := id }

def sysEmpty : Sys :=
  { accounts := [], userlist := none, userlistPerm := none,
    credRows := none, credPerm := none }

/-! Claim theorems -/

/-- Claim C2: validate_username accepts exactly the strings of length 3
to 32 that start with a letter, consist of alphanumerics, hyphens and
underscores, and are not reserved; and create_user returns failure
immediately, with no command spawned and no state change, whenever
validation rejects the username. -/
theorem C2_validate_and_guard (u : String) :
    ((validate_username u).1 = true ↔
      (3 ≤ u.length ∧ u.length ≤ 32 ∧ u.toList.headI.isAlpha = true ∧
        (∀ c ∈ u.toList, isValidChar c = true) ∧ u ∉ reservedNames))
    ∧ (∀ fc lc pol env st pwOpt, (validate_username u).1 = false →
        create_user fc lc pol env st u pwOpt = some (st, (false, u, ""), [])) := by
  refine ⟨validate_username_true_iff u, ?_⟩
  intro fc lc pol env st pwOpt h
  unfold create_user
  simp [h]

/-- Witness for C2 at the reserved username ftp. -/
theorem C2_witness :
    (validate_username "ftp").1 = false ∧
      create_user {} {} {} env0 sysEmpty "ftp" none =
        some (sysEmpty, (false, "ftp", ""), []) :=
  ⟨by decide,
    (C2_validate_and_guard "ftp").2 {} {} {} env0 sysEmpty none (by decide)⟩

lemma log_credentials_userlist (fc : FTPConfig) (lc : LoggingConfig) (now : String)
    (st : Sys) (u pw : String) :
    (log_credentials fc lc now st u pw).userlist = st.userlist := by
  unfold log_credentials
  split <;> rfl

lemma log_credentials_accounts (fc : FTPConfig) (lc : LoggingConfig) (now : String)
    (st : Sys) (u pw : String) :
    (log_credentials fc lc now st u pw).accounts = st.accounts := by
  unfold log_credentials
  split <;> rfl

/-- Effect of create_user on the allow-list file: either untouched, or
(when validation passed) the username appended exactly when its
stripped form was not already present. -/
lemma create_user_userlist_cases {fc : FTPConfig} {lc : LoggingConfig} {pol : Policy}
    {env : Env} {st : Sys} {u : String} {pwOpt : Option String}
    {st' : Sys} {res : Bool × String × String} {tr : List Cmd}
    (h : create_user fc lc pol env st u pwOpt = some (st', res, tr)) :
    st'.userlist = st.userlist ∨
      ((validate_username u).1 = true ∧
        st'.userlist = some (
          if u ∈ (st.userlist.getD []).map pystrip then st.userlist.getD []
          else st.userlist.getD [] ++ [u])) := by
  unfold create_user at h
  split at h
  · simp only [Option.some.injEq, Prod.mk.injEq] at h
    exact Or.inl (by rw [← h.1])
  · rename_i hv
    split at h
    · simp only [Option.some.injEq, Prod.mk.injEq] at h
      exact Or.inl (by rw [← h.1])
    · split at h
      · exact absurd h (by simp)
      · split at h
        · simp only [Option.some.injEq, Prod.mk.injEq] at h
          exact Or.inl (by rw [← h.1])
        · split at h
          · simp only [Option.some.injEq, Prod.mk.injEq] at h
            rw [← h.1]
            split <;> exact Or.inl rfl
          · split at h
            · simp only [Option.some.injEq, Prod.mk.injEq] at h
              exact Or.inl (by rw [← h.1])
            · simp only [Option.some.injEq, Prod.mk.injEq] at h
              refine Or.inr ⟨by simpa using hv, ?_⟩
              rw [← h.1, log_credentials_userlist]

/-- Effect of delete_user on the allow-list file: untouched, or
filtered on the stripped lines differing from the username. -/
lemma delete_user_userlist_cases (env : Env) (st : Sys) (u : String) (rh : Bool) :
    (delete_user env st u rh).1.userlist = st.userlist ∨
      ∃ lines, st.userlist = some lines ∧
        (delete_user env st u rh).1.userlist =
          some (lines.filter (fun l => pystrip l ≠ u)) := by
  unfold delete_user
  split
  · exact Or.inl rfl
  · split
    · exact Or.inl rfl
    · cases hul : st.userlist with
      | none => left; simp [hul]
      | some lines => right; exact ⟨lines, rfl, by simp [hul]⟩

/-- The stripped lines of the allow-list are pairwise distinct: each
username occurs at most once. -/
def StrippedNodup : Option (List String) → Prop
  | none => True
  | some ls => (ls.map pystrip).Nodup

/-- Claim C9: both create_user and delete_user preserve the invariant
that each username occurs at most once among the stripped lines of the
allow-list file. -/
theorem C9_userlist_nodup (fc : FTPConfig) (lc : LoggingConfig) (pol : Policy) (env : Env)
    (st : Sys) (u : String) (pwOpt : Option String) (rh : Bool)
    (hinv : StrippedNodup st.userlist) :
    (∀ st' res tr, create_user fc lc pol env st u pwOpt = some (st', res, tr) →
        StrippedNodup st'.userlist)
    ∧ StrippedNodup (delete_user env st u rh).1.userlist := by
  constructor
  · intro st' res tr h
    rcases create_user_userlist_cases h with heq | ⟨hv, heq⟩
    · rw [heq]; exact hinv
    · rw [heq]
      cases hul : st.userlist with
      | none =>
        have hrw : (if u ∈ ((none : Option (List String)).getD []).map pystrip
            then ((none : Option (List String)).getD [])
            else ((none : Option (List String)).getD []) ++ [u]) = [u] := by simp
        rw [hrw]
        show ([u].map pystrip).Nodup
        simp
      | some ls =>
        rw [hul] at hinv
        simp only [Option.getD_some]
        by_cases hm : u ∈ ls.map pystrip
        · rw [if_pos hm]
          exact hinv
        · rw [if_neg hm]
          show ((ls ++ [u]).map pystrip).Nodup
          rw [List.map_append, List.map_singleton, pystrip_of_valid hv]
          have hnd : (ls.map pystrip).Nodup := hinv
          simp [List.nodup_append, hnd, hm]
  · rcases delete_user_userlist_cases env st u rh with heq | ⟨lines, hul, heq⟩
    · rw [heq]; exact hinv
    · rw [heq]
      rw [hul] at hinv
      have hnd : (lines.map pystrip).Nodup := hinv
      show ((lines.filter (fun l => pystrip l ≠ u)).map pystrip).Nodup
      exact hnd.sublist ((lines.filter_sublist).map pystrip)

/-- Witness for C9 on a two-line allow-list. -/
def sysAB : Sys :=
  { accounts := ["alice"], userlist := some ["alice", "bob"],
    userlistPerm := some 0o644, credRows := some [credHeader], credPerm := some 0o600 }

theorem C9_witness :
    StrippedNodup sysAB.userlist ∧
      StrippedNodup (delete_user env0 sysAB "alice" true).1.userlist :=
  ⟨by show (List.map pystrip ["alice", "bob"]).Nodup; decide,
    (C9_userlist_nodup {} {} {} env0 sysAB "alice" none true
      (by show (List.map pystrip ["alice", "bob"]).Nodup; decide)).2⟩

/-- Claim C4: a successful delete_user rewrites the allow-list keeping
exactly the lines whose stripped content differs from the username,
unchanged and in order. -/
theorem C4_delete_filters (env : Env) (st : Sys) (u : String) (rh : Bool)
    (lines : List String)
    (hmem : u ∈ st.accounts) (hok : env.userdel_ok = true)
    (hul : st.userlist = some lines) :
    (delete_user env st u rh).1.userlist =
      some (lines.filter (fun l => pystrip l ≠ u))
    ∧ (delete_user env st u rh).2.1 = true := by
  unfold delete_user
  simp [hmem, hok, hul]

/-- Witness for C4: deleting alice from a two-line list keeps exactly bob. -/
theorem C4_witness :
    ("alice" ∈ sysAB.accounts ∧ env0.userdel_ok = true ∧
        sysAB.userlist = some ["alice", "bob"]) ∧
      ((delete_user env0 sysAB "alice" true).1.userlist =
          some (["alice", "bob"].filter (fun l => pystrip l ≠ "alice"))
        ∧ (delete_user env0 sysAB "alice" true).2.1 = true) :=
  ⟨⟨by decide, rfl, rfl⟩,
    C4_delete_filters env0 sysAB "alice" true ["alice", "bob"] (by decide) rfl rfl⟩

/-- Claim C6: when useradd or chpasswd fails inside create_user, the
call returns (false, username, empty password), the cleanup userdel is
invoked at most once, neither failing command is retried, and the
credential log is untouched (no success path is taken). -/
theorem C6_failure_path (fc : FTPConfig) (lc : LoggingConfig) (pol : Policy) (env : Env)
    (st : Sys) (u : String) (pwOpt : Option String) (pw : String)
    (hv : (validate_username u).1 = true)
    (hne : u ∉ st.accounts)
    (hpw : pwResolve pol env pwOpt = some pw)
    (hfail : env.useradd_ok = false ∨ env.chpasswd_rc ≠ 0) :
    (create_user fc lc pol env st u pwOpt).isSome = true
    ∧ ∀ st' res tr, create_user fc lc pol env st u pwOpt = some (st', res, tr) →
        res = (false, u, "")
        ∧ tr.count (Cmd.userdel u true) ≤ 1
        ∧ tr.count (Cmd.useradd u) ≤ 1
        ∧ tr.count (Cmd.chpasswd u) ≤ 1
        ∧ st'.credRows = st.credRows ∧ st'.credPerm = st.credPerm := by
  rcases Classical.em (env.useradd_ok = false) with hu | hu
  · constructor
    · unfold create_user
      simp [hv, hne, hpw, hu]
    · intro st' res tr h
      unfold create_user at h
      simp only [hv, hne, hpw, hu, Bool.true_eq_false, if_false, ite_true, ite_false,
        if_neg, not_false_eq_true, Option.some.injEq, Prod.mk.injEq] at h
      obtain ⟨hst, hres, htr⟩ := h
      subst hst
      subst htr
      refine ⟨hres.symm, ?_, ?_, ?_, rfl, rfl⟩ <;>
        simp [List.count_cons, List.count_nil, beq_iff_eq]
  · have hrc : env.chpasswd_rc ≠ 0 := hfail.resolve_left hu
    constructor
    · unfold create_user
      simp [hv, hne, hpw, hu, hrc]
    · intro st' res tr h
      unfold create_user at h
      simp [hv, hne, hpw, hu, hrc] at h
      obtain ⟨hst, hres, htr⟩ := h
      subst htr
      refine ⟨hres.symm, ?_, ?_, ?_, ?_, ?_⟩
      · simp [List.count_cons, List.count_nil, beq_iff_eq]
      · simp [List.count_cons, List.count_nil, beq_iff_eq]
      · simp [List.count_cons, List.count_nil, beq_iff_eq]
      · rw [← hst]
        by_cases hd : env.userdel_ok <;> simp [hd]
      · rw [← hst]
        by_cases hd : env.userdel_ok <;> simp [hd]

/-- Environment in which chpasswd exits nonzero. -/
def envPwFail : Env := { env0 with chpasswd_rc := 1 }

/-- Witness for C6 on the chpasswd-failure path. -/
theorem C6_witness :
    ((validate_username "alice").1 = true ∧ "alice" ∉ sysEmpty.accounts ∧
        pwResolve {} envPwFail (some "secret") = some "secret" ∧
        (envPwFail.useradd_ok = false ∨ envPwFail.chpasswd_rc ≠ 0)) ∧
      ((create_user {} {} {} envPwFail sysEmpty "alice" (some "secret")).isSome = true ∧
        ∀ st' res tr,
          create_user {} {} {} envPwFail sysEmpty "alice" (some "secret") =
              some (st', res, tr) →
            res = (false, "alice", "")
            ∧ tr.count (Cmd.userdel "alice" true) ≤ 1
            ∧ tr.count (Cmd.useradd "alice") ≤ 1
            ∧ tr.count (Cmd.chpasswd "alice") ≤ 1
            ∧ st'.credRows = sysEmpty.credRows ∧ st'.credPerm = sysEmpty.credPerm) :=
  ⟨⟨by decide, by decide, rfl, Or.inr (by decide)⟩,
    C6_failure_path {} {} {} envPwFail sysEmpty "alice" (some "secret") "secret"
      (by decide) (by decide) rfl (Or.inr (by decide))⟩

/-- Claim C3 (amended): when credential logging is enabled, every
successful create_user or change_password appends exactly one data row
(timestamp, username, password, home directory, files directory) after
the pre-existing rows (writing the header first when the file is new)
and sets the file permissions to 0600. -/
theorem C3_log_append (fc : FTPConfig) (lc : LoggingConfig) (pol : Policy) (env : Env)
    (st : Sys) (u : String) (pwOpt : Option String)
    (hen : lc.isEnabled = true) :
    (∀ st' ok npw tr, change_password fc lc pol env st u pwOpt = some (st', (ok, npw), tr) →
        ok = true →
        st'.credRows = some (credBase st ++ [credRow fc env.now u npw])
          ∧ st'.credPerm = some 0o600)
    ∧ (∀ st' ok nu npw tr,
        create_user fc lc pol env st u pwOpt = some (st', (ok, nu, npw), tr) →
        ok = true →
        st'.credRows = some (credBase st ++ [credRow fc env.now u npw])
          ∧ st'.credPerm = some 0o600) := by
  have hlog : ∀ st0 : Sys, st0.credRows = st.credRows →
      ∀ pw, (log_credentials fc lc env.now st0 u pw).credRows =
          some (credBase st ++ [credRow fc env.now u pw])
        ∧ (log_credentials fc lc env.now st0 u pw).credPerm = some 0o600 := by
    intro st0 hrows pw
    unfold log_credentials
    simp [hen, credBase, hrows]
  constructor
  · intro st' ok npw tr h hok
    unfold change_password at h
    split at h
    · simp only [Option.some.injEq, Prod.mk.injEq] at h
      rw [← h.2.1.1] at hok
      exact absurd hok (by simp)
    · split at h
      · exact absurd h (by simp)
      · split at h
        · simp only [Option.some.injEq, Prod.mk.injEq] at h
          rw [← h.2.1.1] at hok
          exact absurd hok (by simp)
        · simp only [Option.some.injEq, Prod.mk.injEq] at h
          obtain ⟨hst, ⟨-, hpw⟩, -⟩ := h
          rw [← hst, ← hpw]
          exact hlog st rfl _
  · intro st' ok nu npw tr h hok
    unfold create_user at h
    split at h
    · simp only [Option.some.injEq, Prod.mk.injEq] at h
      rw [← h.2.1.1] at hok
      exact absurd hok (by simp)
    · split at h
      · simp only [Option.some.injEq, Prod.mk.injEq] at h
        rw [← h.2.1.1] at hok
        exact absurd hok (by simp)
      · split at h
        · exact absurd h (by simp)
        · split at h
          · simp only [Option.some.injEq, Prod.mk.injEq] at h
            rw [← h.2.1.1] at hok
            exact absurd hok (by simp)
          · split at h
            · simp only [Option.some.injEq, Prod.mk.injEq] at h
              rw [← h.2.1.1] at hok
              exact absurd hok (by simp)
            · split at h
              · simp only [Option.some.injEq, Prod.mk.injEq] at h
                rw [← h.2.1.1] at hok
                exact absurd hok (by simp)
              · simp only [Option.some.injEq, Prod.mk.injEq] at h
                obtain ⟨hst, ⟨-, -, hpw⟩, -⟩ := h
                rw [← hst, ← hpw]
                apply hlog
                rfl

/-- Configuration with credential logging switched off. -/
def lcOff : LoggingConfig := { enabled := some false, credentials_file := none }

/-- A machine state with one account and an existing one-row credential
file. -/
def sysCred : Sys :=
  { accounts := ["alice"], userlist := some ["alice"], userlistPerm := some 0o644,
    credRows := some [credHeader], credPerm := some 0o600 }

/-- Counterexample to C3 as stated: with logging disabled in the
configuration, change_password succeeds yet appends no row at all to
the credential file. -/
theorem C3_counterexample :
    change_password {} lcOff {} env0 sysCred "alice" (some "pw") =
      some (sysCred, (true, "pw"), [Cmd.idCmd "alice", Cmd.chpasswd "alice"])
    ∧ sysCred.credRows = some [credHeader] := by
  constructor
  · decide
  · rfl

/-- Witness for C3 on a successful change_password with default
(enabled) logging. -/
theorem C3_witness :
    (LoggingConfig.isEnabled {} = true) ∧
      (∀ st' ok npw tr,
        change_password {} {} {} env0 sysCred "alice" (some "pw") =
            some (st', (ok, npw), tr) →
          ok = true →
          st'.credRows = some (credBase sysCred ++ [credRow {} env0.now "alice" npw])
            ∧ st'.credPerm = some 0o600) :=
  ⟨rfl, (C3_log_append {} {} {} env0 sysCred "alice" (some "pw") rfl).1⟩

/-- Claim C5 (amended): on a malformed configuration file only
ftp_users.py exits with code 1; the two debuggers and the Tailscale
setup script fall back to an empty configuration and continue. -/
theorem C5_malformed_behavior :
    ftpUsers_load_config ConfigSrc.malformed = LoadResult.exited 1
    ∧ ftpDebug_load_config ConfigSrc.malformed = LoadResult.loaded {}
    ∧ tailscaleSetup_load_config ConfigSrc.malformed = LoadResult.loaded {}
    ∧ tailscaleDebug_load_config ConfigSrc.malformed = LoadResult.loaded {} :=
  ⟨rfl, rfl, rfl, rfl⟩

/-- Counterexample to C5 as stated: ftp_debug.py returns an empty
configuration instead of terminating when the file holds invalid
JSON. -/
theorem C5_counterexample :
    ftpDebug_load_config ConfigSrc.malformed = LoadResult.loaded {}
    ∧ ftpDebug_load_config ConfigSrc.malformed ≠ LoadResult.exited 1 :=
  ⟨rfl, fun h => LoadResult.noConfusion h⟩

/-- Claim C7: every recognized sub-key that is absent resolves to its
hardcoded default: generator length 16, all four classes enabled, the
documented special set, ambiguous characters excluded, ftp_root
/srv/ftp and allowed_users_file /etc/vsftpd.userlist. -/
theorem C7_defaults (p : Policy) (fc : FTPConfig)
    (hl : p.length = none) (hu : p.include_uppercase = none)
    (hlo : p.include_lowercase = none) (hd : p.include_digits = none)
    (hs : p.include_special = none) (hsc : p.special_chars = none)
    (hea : p.exclude_ambiguous = none)
    (hr : fc.ftp_root = none) (ha : fc.allowed_users_file = none) :
    (PasswordGenerator.ofPolicy p).length = 16
    ∧ (PasswordGenerator.ofPolicy p).include_lowercase = true
    ∧ (PasswordGenerator.ofPolicy p).include_uppercase = true
    ∧ (PasswordGenerator.ofPolicy p).include_digits = true
    ∧ (PasswordGenerator.ofPolicy p).include_special = true
    ∧ (PasswordGenerator.ofPolicy p).special_chars = "!@#$%^&*-_=+".toList
    ∧ (PasswordGenerator.ofPolicy p).exclude_ambiguous = true
    ∧ fc.root = "/srv/ftp"
    ∧ fc.userlistPath = "/etc/vsftpd.userlist" := by
  simp [PasswordGenerator.ofPolicy, FTPConfig.root, FTPConfig.userlistPath,
    hl, hu, hlo, hd, hs, hsc, hea, hr, ha]

/-- Witness for C7 at the empty policy and empty ftp_config. -/
theorem C7_witness :
    ((Policy.mk none none none none none none none none none none none).length = none ∧
        (FTPConfig.mk none none none none).ftp_root = none) ∧
      ((PasswordGenerator.ofPolicy
          (Policy.mk none none none none none none none none none none none)).length = 16
        ∧ (FTPConfig.mk none none none none).root = "/srv/ftp") := by
  refine ⟨⟨rfl, rfl⟩, ?_, ?_⟩
  · exact (C7_defaults (Policy.mk none none none none none none none none none none none)
      (FTPConfig.mk none none none none) rfl rfl rfl rfl rfl rfl rfl rfl rfl).1
  · exact (C7_defaults (Policy.mk none none none none none none none none none none none)
      (FTPConfig.mk none none none none) rfl rfl rfl rfl rfl rfl rfl rfl rfl).2.2.2.2.2.2.2.1

/-- Claim C8: the shared diagnostic _run_command helper always returns
an (exit code, stdout, stderr) triple; a timeout yields -1 with the
fixed message, any other raised exception yields -1 with its message,
and a completed subprocess passes its triple through. -/
theorem C8_run_command_total (o : RunOutcome) :
    (∃ rc out err, debug_run_command o = (rc, out, err))
    ∧ (o = RunOutcome.timedOut →
        debug_run_command o = (-1, "", "Command timed out"))
    ∧ (∀ msg, o = RunOutcome.raised msg → debug_run_command o = (-1, "", msg))
    ∧ (∀ rc out err, o = RunOutcome.completed rc out err →
        debug_run_command o = (rc, out, err)) := by
  refine ⟨⟨(debug_run_command o).1, (debug_run_command o).2.1,
      (debug_run_command o).2.2, rfl⟩, ?_, ?_, ?_⟩
  · intro h; subst h; rfl
  · intro msg h; subst h; rfl
  · intro rc out err h; subst h; rfl

/-- Witness for C8 at a timed-out command. -/
theorem C8_witness :
    RunOutcome.timedOut = RunOutcome.timedOut ∧
      debug_run_command RunOutcome.timedOut = (-1, "", "Command timed out") :=
  ⟨rfl, (C8_run_command_total RunOutcome.timedOut).2.1 rfl⟩

lemma countClass_append (a b cls : List Char) :
    countClass (a ++ b) cls = countClass a cls + countClass b cls := by
  simp [countClass, List.filter_append]

lemma countClass_full {a cls : List Char} (h : ∀ c ∈ a, c ∈ cls) :
    countClass a cls = a.length := by
  unfold countClass
  rw [List.filter_eq_self.mpr]
  intro c hc
  exact decide_eq_true (h c hc)

lemma countClass_perm {a b : List Char} (h : a.Perm b) (cls : List Char) :
    countClass a cls = countClass b cls :=
  (h.filter _).length_eq

/-- Claim C1 (amended): for every draw oracle and every shuffle that
permutes its input, a returned password has length exactly
max(configured length, sum of the enabled per-class minimums), and
contains at least the per-class minimum number of characters from each
enabled class pool. -/
theorem C1_generate_bounds (g : PasswordGenerator) (pick : Nat → Nat)
    (shuf : List Char → List Char) (hs : ∀ l, (shuf l).Perm l)
    (cs : List Char) (h : g.generate pick shuf = some cs) :
    cs.length = max g.length g.minTotal
    ∧ (g.include_lowercase = true → g.min_lowercase ≤ countClass cs g.lowerChars)
    ∧ (g.include_uppercase = true → g.min_uppercase ≤ countClass cs g.upperChars)
    ∧ (g.include_digits = true → g.min_digits ≤ countClass cs g.digitChars)
    ∧ (g.include_special = true → g.min_special ≤ countClass cs g.special_chars) := by
  unfold PasswordGenerator.generate at h
  simp only [Option.pure_def, Option.bind_eq_bind, Option.bind_eq_some,
    Option.some.injEq] at h
  obtain ⟨lp, hlp, up, hup, dp, hdp, sp, hsp, fill, hfill, hcs⟩ := h
  obtain ⟨hlpl, hlpm⟩ := drawN_spec hlp
  obtain ⟨hupl, hupm⟩ := drawN_spec hup
  obtain ⟨hdpl, hdpm⟩ := drawN_spec hdp
  obtain ⟨hspl, hspm⟩ := drawN_spec hsp
  obtain ⟨hfl, hfm⟩ := drawN_spec hfill
  have hperm : cs.Perm (lp ++ up ++ dp ++ sp ++ fill) := hcs ▸ hs _
  have hlen : cs.length =
      lp.length + up.length + dp.length + sp.length + fill.length := by
    rw [hperm.length_eq]
    simp only [List.length_append]
  have hb : (lp ++ up ++ dp ++ sp).length =
      lp.length + up.length + dp.length + sp.length := by
    simp only [List.length_append]
  have hS : lp.length + up.length + dp.length + sp.length = g.minTotal := by
    rw [hlpl, hupl, hdpl, hspl]
    rfl
  have hsplit : ∀ cls, countClass cs cls =
      countClass lp cls + countClass up cls + countClass dp cls
        + countClass sp cls + countClass fill cls := by
    intro cls
    rw [countClass_perm hperm cls]
    simp only [countClass_append]
  refine ⟨?_, ?_, ?_, ?_, ?_⟩
  · rw [hlen, hfl, hb, hS]
    omega
  · intro hflag
    have h1 : countClass lp g.lowerChars = lp.length := countClass_full hlpm
    have h2 : lp.length = g.min_lowercase := by rw [hlpl, if_pos hflag]
    rw [hsplit]
    omega
  · intro hflag
    have h1 : countClass up g.upperChars = up.length := countClass_full hupm
    have h2 : up.length = g.min_uppercase := by rw [hupl, if_pos hflag]
    rw [hsplit]
    omega
  · intro hflag
    have h1 : countClass dp g.digitChars = dp.length := countClass_full hdpm
    have h2 : dp.length = g.min_digits := by rw [hdpl, if_pos hflag]
    rw [hsplit]
    omega
  · intro hflag
    have h1 : countClass sp g.special_chars = sp.length := countClass_full hspm
    have h2 : sp.length = g.min_special := by rw [hspl, if_pos hflag]
    rw [hsplit]
    omega

/-- Policy asking for a 4-character password while the default
per-class minimums total 8. -/
def polLen4 : Policy := { length := some 4 }

/-- Counterexample to C1 as stated: with configured length 4 and the
default minimums the generated password has length 8, not 4. -/
theorem C1_counterexample :
    (PasswordGenerator.ofPolicy polLen4).generate (fun _ => 0) id =
      some "aaAA22!!".toList
    ∧ "aaAA22!!".toList.length = 8
    ∧ (PasswordGenerator.ofPolicy polLen4).length = 4 := by
  refine ⟨by decide, by decide, rfl⟩

/-- Witness for C1 at the all-default policy with a constant draw
oracle and the identity shuffle. -/
theorem C1_witness :
    (PasswordGenerator.ofPolicy {}).generate (fun _ => 0) id =
        some "aaAA22!!aaaaaaaa".toList
    ∧ ("aaAA22!!aaaaaaaa".toList.length =
          max (PasswordGenerator.ofPolicy {}).length
            (PasswordGenerator.ofPolicy {}).minTotal
        ∧ ((PasswordGenerator.ofPolicy {}).include_lowercase = true →
            (PasswordGenerator.ofPolicy {}).min_lowercase ≤
              countClass "aaAA22!!aaaaaaaa".toList
                (PasswordGenerator.ofPolicy {}).lowerChars)
        ∧ ((PasswordGenerator.ofPolicy {}).include_uppercase = true →
            (PasswordGenerator.ofPolicy {}).min_uppercase ≤
              countClass "aaAA22!!aaaaaaaa".toList
                (PasswordGenerator.ofPolicy {}).upperChars)
        ∧ ((PasswordGenerator.ofPolicy {}).include_digits = true →
            (PasswordGenerator.ofPolicy {}).min_digits ≤
              countClass "aaAA22!!aaaaaaaa".toList
                (PasswordGenerator.ofPolicy {}).digitChars)
        ∧ ((PasswordGenerator.ofPolicy {}).include_special = true →
            (PasswordGenerator.ofPolicy {}).min_special ≤
              countClass "aaAA22!!aaaaaaaa".toList
                (PasswordGenerator.ofPolicy {}).special_chars)) :=
  ⟨by decide,
    C1_generate_bounds (PasswordGenerator.ofPolicy {}) (fun _ => 0) id
      (fun l => List.Perm.refl l) "aaAA22!!aaaaaaaa".toList (by decide)⟩

/-- Claim C10 (amended): with a positive configured length, disabling
all four character classes makes generate fail on its empty pool, and
generate returns a password only when at least one class is enabled. -/
theorem C10_empty_pool (g : PasswordGenerator) (pick : Nat → Nat)
    (shuf : List Char → List Char) (hpos : 0 < g.length) :
    (g.include_lowercase = false → g.include_uppercase = false →
      g.include_digits = false → g.include_special = false →
      g.generate pick shuf = none)
    ∧ (∀ cs, g.generate pick shuf = some cs →
        (g.include_lowercase = true ∨ g.include_uppercase = true ∨
          g.include_digits = true ∨ g.include_special = true)) := by
  have hnone : g.include_lowercase = false → g.include_uppercase = false →
      g.include_digits = false → g.include_special = false →
      g.generate pick shuf = none := by
    intro h1 h2 h3 h4
    obtain ⟨n, hn⟩ := Nat.exists_eq_succ_of_ne_zero (Nat.pos_iff_ne_zero.mp hpos)
    unfold PasswordGenerator.generate
    simp [h1, h2, h3, h4, PasswordGenerator.charset, drawN, hn, pickFrom]
  refine ⟨hnone, ?_⟩
  intro cs hcs
  cases hl : g.include_lowercase
  · cases hu : g.include_uppercase
    · cases hd : g.include_digits
      · cases hsp : g.include_special
        · exfalso
          rw [hnone hl hu hd hsp] at hcs
          exact Option.noConfusion hcs
        · exact Or.inr (Or.inr (Or.inr rfl))
      · exact Or.inr (Or.inr (Or.inl rfl))
    · exact Or.inr (Or.inl rfl)
  · exact Or.inl rfl

/-- Policy with every character class disabled and length 0. -/
def polAllOff0 : Policy :=
  { length := some 0, include_uppercase := some false, include_lowercase := some false,
    include_digits := some false, include_special := some false }

/-- Counterexample to C10 as stated: with every class disabled and
configured length 0, generate returns normally (the empty password)
although no character class is enabled. -/
theorem C10_counterexample :
    (PasswordGenerator.ofPolicy polAllOff0).generate (fun _ => 0) id = some []
    ∧ (PasswordGenerator.ofPolicy polAllOff0).include_lowercase = false
    ∧ (PasswordGenerator.ofPolicy polAllOff0).include_uppercase = false
    ∧ (PasswordGenerator.ofPolicy polAllOff0).include_digits = false
    ∧ (PasswordGenerator.ofPolicy polAllOff0).include_special = false := by
  refine ⟨by rfl, rfl, rfl, rfl, rfl⟩

/-- Policy with every character class disabled and positive length. -/
def polAllOff5 : Policy :=
  { length := some 5, include_uppercase := some false, include_lowercase := some false,
    include_digits := some false, include_special := some false }

/-- Witness for C10 at a positive length with all classes disabled. -/
theorem C10_witness :
    0 < (PasswordGenerator.ofPolicy polAllOff5).length ∧
      (PasswordGenerator.ofPolicy polAllOff5).generate (fun _ => 0) id = none :=
  ⟨by decide,
    (C10_empty_pool (PasswordGenerator.ofPolicy polAllOff5) (fun _ => 0) id
      (by decide)).1 rfl rfl rfl rfl⟩

end LinuxScripts
